import Mathlib

/-!
Verification of the Flask scaffold emitter (`flaskscaffold.py`).

The program is a one-shot file emitter: `make_tree` writes a fixed table of
template files under a root directory, `write` skips existing files unless an
overwrite flag is set, and two best-effort post-steps (`make_venv`,
`init_git`) wrap external-process calls in try/except.

The embedding below models:
  * the filesystem as an association list of (relative path, content) pairs
    plus a list of created directories (paths are component lists);
  * Python's `textwrap.dedent` (used on every template literal), including
    its normalization of whitespace-only lines, on `List Char`;
  * the template strings verbatim from the source (literal braces are
    written with \x7b / \x7d escapes);
  * `make_tree` as a left fold of the source's write/mkdir sequence;
  * `main`, `make_venv`, `init_git` with the external-process results
    supplied as explicit oracle values, returning the emitted tree, the
    stdout lines and the exit code;
  * a fallible variant of the emission (`runActsE`) in which individual
    content writes may fail, for the fatal-error claims;
  * POSIX `pathlib` join semantics (`pathJoin`) for the `--venv` argument.
-/

namespace FlaskScaffold

/-! ## textwrap.dedent, modelled on `List Char` -/

/-- Characters treated as indentation whitespace by `textwrap.dedent`. -/
def isWsChar (c : Char) : Bool := c == ' ' || c == '\t'

/-- Split a character list at a separator character (Python `str.split`):
e.g. the split of the text a,b, at the comma is ["a", "b", ""]. -/
def splitCh (sep : Char) : List Char → List (List Char)
  | [] => [[]]
  | c :: cs =>
    if c == sep then [] :: splitCh sep cs
    else
      match splitCh sep cs with
      | [] => [[c]]
      | l :: ls => (c :: l) :: ls

/-- Join lines with newline characters (inverse of splitting at a newline). -/
def joinNl : List (List Char) → List Char
  | [] => []
  | [l] => l
  | l :: ls => l ++ '\n' :: joinNl ls

/-- A non-empty line consisting solely of spaces and tabs
(`_whitespace_only_re` in `textwrap`). -/
def isWsOnly (l : List Char) : Bool := !l.isEmpty && l.all isWsChar

/-- `textwrap.dedent` first replaces whitespace-only lines by empty lines. -/
def blankWs (l : List Char) : List Char := if isWsOnly l then [] else l

/-- Leading run of spaces and tabs of a line. -/
def leadingWs : List Char → List Char
  | [] => []
  | c :: cs => if isWsChar c then c :: leadingWs cs else []

/-- Whether `p` is a prefix of `l` (on characters). -/
def isPreOf : List Char → List Char → Bool
  | [], _ => true
  | _ :: _, [] => false
  | a :: as, b :: bs => a == b && isPreOf as bs

/-- Longest common prefix of two character lists. -/
def commonPre : List Char → List Char → List Char
  | a :: as, b :: bs => if a == b then a :: commonPre as bs else []
  | _, _ => []

/-- One step of `textwrap.dedent`'s margin computation: keep the old margin if
the new indent extends it, shrink to the new indent if it is a prefix, and
otherwise fall back to the common prefix. -/
def marginStep (margin : Option (List Char)) (ind : List Char) : Option (List Char) :=
  match margin with
  | none => some ind
  | some m =>
    if isPreOf m ind then some m
    else if isPreOf ind m then some ind
    else some (commonPre m ind)

/-- Strip the margin from a line when the line starts with it
(`re.sub(r'(?m)^' + margin, '', text)`). -/
def stripMargin (m l : List Char) : List Char :=
  if isPreOf m l then l.drop m.length else l

/-- `textwrap.dedent` on character lists: blank the whitespace-only lines,
compute the common margin over the lines that contain a non-whitespace
character, and strip it from every line. -/
def dedentL (t : List Char) : List Char :=
  let ls := (splitCh '\n' t).map blankWs
  let withContent := ls.filter (fun l => l.any (fun c => !isWsChar c))
  let margin := ((withContent.map leadingWs).foldl marginStep none).getD []
  joinNl (ls.map (stripMargin margin))

/-- `textwrap.dedent` on strings. -/
def dedent (s : String) : String := String.mk (dedentL s.data)

/-! ## Substring occurrence counting (for the content claims) -/

/-- Number of positions of `s` at which `pat` occurs as a substring
(occurrences may overlap; the patterns used below cannot overlap). -/
def countOccs (pat : List Char) : List Char → Nat
  | [] => if isPreOf pat [] then 1 else 0
  | c :: rest => (if isPreOf pat (c :: rest) then 1 else 0) + countOccs pat rest

/-! ## Filesystem model -/

/-- A relative path under the project root, as a list of components. -/
abbrev RelPath := List String

/-- The filesystem subtree rooted at the target directory: the regular files
(association list from path to text content, first binding wins) and the
directories created so far. -/
structure FS where
  files : List (RelPath × String)
  dirs : List RelPath
deriving Repr, DecidableEq

/-- The empty target directory. -/
def emptyFS : FS := ⟨[], []⟩

/-- First binding for `p` in the file table. -/
def lookupEntries : List (RelPath × String) → RelPath → Option String
  | [], _ => none
  | (k, v) :: rest, p => if p = k then some v else lookupEntries rest p

/-- Content of the file at `p`, if one exists (`path.exists()` /
`path.read_text()`). -/
def lookupFile (fs : FS) (p : RelPath) : Option String :=
  lookupEntries fs.files p

/-- `path.write_text(content)`: replace the content if the file exists,
otherwise append a new file entry. -/
def setEntry : List (RelPath × String) → RelPath → String → List (RelPath × String)
  | [], p, c => [(p, c)]
  | (k, v) :: rest, p, c =>
    if k = p then (p, c) :: rest else (k, v) :: setEntry rest p c

/-- Write `c` at `p` in the file table. -/
def setFile (fs : FS) (p : RelPath) (c : String) : FS :=
  { fs with files := setEntry fs.files p c }

/-- Record a directory (no-op when it already exists; `exist_ok=True`). -/
def addDir (fs : FS) (d : RelPath) : FS :=
  if d ∈ fs.dirs then fs else { fs with dirs := fs.dirs ++ [d] }

/-- The proper ancestors of a path, outermost first:
`ancestors ["a","b","c"] = [["a"], ["a","b"]]`. -/
def ancestors (p : RelPath) : List RelPath :=
  ((List.range p.length).drop 1).map (fun k => p.take k)

/-- `path.parent.mkdir(parents=True, exist_ok=True)`: create every ancestor
directory of `p`. -/
def mkdirParents (fs : FS) (p : RelPath) : FS :=
  (ancestors p).foldl addDir fs

/-- `path.mkdir(parents=True, exist_ok=True)`: create `p` as a directory
together with its ancestors. -/
def mkdirAll (fs : FS) (d : RelPath) : FS :=
  addDir (mkdirParents fs d) d

/-- `write(path, content, overwrite=...)` from the source: return unchanged
when the path exists and `overwrite` is false; otherwise create the parent
directories and write the content. -/
def write (fs : FS) (p : RelPath) (c : String) (overwrite : Bool) : FS :=
  if (lookupFile fs p).isSome && !overwrite then fs
  else setFile (mkdirParents fs p) p c

/-! ## The template table of `make_tree`

Each definition is the corresponding local of `make_tree`, with the raw
triple-quoted literal reproduced byte for byte (including its 4-space source
margin) and `dedent` applied as in the source. Literal braces are written
with `\x7b` / `\x7d` escapes. -/

/-- The application package name (local `pkg` of `make_tree`). -/
def pkg : String := "app"

/-- `init_py`: the application initializer; an f-string whose hole inserts
the api-blueprint wiring exactly when `with_api` is set. -/
def init_py (with_api : Bool) : String :=
  dedent ("    from flask import Flask
    from .extensions import db, migrate  # add more extensions as you need

    def create_app():
        app = Flask(__name__)
        app.config.from_object('config.Config')

        # init extensions
        db.init_app(app)
        migrate.init_app(app, db)

        # register blueprints
        from .routes import main_bp
        app.register_blueprint(main_bp)

        " ++ (if with_api then ("from .api import api_bp\n        app.register_blueprint(api_bp, url_prefix='/api')") else ("")) ++ "

        return app
    ")

/-- `extensions_py`. -/
def extensions_py : String :=
  dedent ("    from flask_sqlalchemy import SQLAlchemy
    from flask_migrate import Migrate

    db = SQLAlchemy()
    migrate = Migrate()
    ")

/-- `routes_py`. -/
def routes_py : String :=
  dedent ("    from flask import Blueprint, render_template

    main_bp = Blueprint('main', __name__)

    @main_bp.route('/')
    def index():
        return render_template('index.html', title='Home')
    ")

/-- `models_py`. -/
def models_py : String :=
  dedent ("    from .extensions import db

    class Example(db.Model):
        id = db.Column(db.Integer, primary_key=True)
        name = db.Column(db.String(120), nullable=False)
    ")

/-- `forms_py`. -/
def forms_py : String :=
  dedent ("    # Optional WTForms go here (only if you use Flask-WTF)
    ")

/-- `base_html`. -/
def base_html : String :=
  dedent ("    <!doctype html>
    <html lang=\"en\">
    <head>
      <meta charset=\"utf-8\"/>
      <meta name=\"viewport\" content=\"width=device-width, initial-scale=1\"/>
      <title>\x7b\x7b title or \"Flask App\" \x7d\x7d</title>
      <link rel=\"stylesheet\" href=\"\x7b\x7b url_for('static', filename='css/main.css') \x7d\x7d\">
    </head>
    <body>
      <header><h1>\x7b\x7b title or \"Flask App\" \x7d\x7d</h1></header>
      <main>\x7b% block content %\x7d\x7b% endblock %\x7d</main>
      <script src=\"\x7b\x7b url_for('static', filename='js/main.js') \x7d\x7d\"></script>
    </body>
    </html>
    ")

/-- `index_html`. -/
def index_html : String :=
  dedent ("    \x7b% extends 'base.html' %\x7d
    \x7b% block content %\x7d
      <p>Hello from Flask! 🎉</p>
    \x7b% endblock %\x7d
    ")

/-- `css_main` (a plain literal in the source, no dedent). -/
def css_main : String :=
  "body\x7bfont-family:system-ui,Segoe UI,Roboto,Helvetica,Arial,sans-serif;margin:2rem;\x7d"

/-- `js_main` (a plain literal in the source, no dedent). -/
def js_main : String := "console.log('Flask scaffold ready');"

/-- `api_init`. -/
def api_init : String :=
  dedent ("    from flask import Blueprint, jsonify

    api_bp = Blueprint('api', __name__)

    @api_bp.get('/health')
    def health():
        return jsonify(status='ok')
    ")

/-- `wsgi_py`. -/
def wsgi_py : String :=
  dedent ("    from app import create_app
    app = create_app()
    ")

/-- `run_py`. -/
def run_py : String :=
  dedent ("    from app import create_app
    app = create_app()

    if __name__ == '__main__':
        app.run(debug=True)
    ")

/-- `config_py`. -/
def config_py : String :=
  dedent ("    import os

    class Config:
        SECRET_KEY = os.environ.get('SECRET_KEY', 'dev-secret-key-change-me')
        SQLALCHEMY_DATABASE_URI = os.environ.get('DATABASE_URL', 'sqlite:///app.db')
        SQLALCHEMY_TRACK_MODIFICATIONS = False
    ")

/-- `reqs`. -/
def reqs : String :=
  dedent ("    Flask>=3.0
    Flask-SQLAlchemy>=3.1
    Flask-Migrate>=4.0
    SQLAlchemy>=2.0
    ")

/-- `test_basic`. -/
def test_basic : String :=
  dedent ("    from app import create_app

    def test_index():
        app = create_app()
        with app.test_client() as c:
            r = c.get('/')
            assert r.status_code == 200
    ")

/-- `readme`: an f-string parameterized by the project name. -/
def readme (name : String) : String :=
  dedent ("    # " ++ name ++ "

    Minimal Flask app scaffold.

    ## Quickstart
    ```bash
    python -m venv .venv
    . .venv/bin/activate  # Windows: .\\.venv\\Scripts\\activate
    pip install -r requirements.txt
    flask --app wsgi:app db upgrade  # creates DB (no migrations yet but sets up env)
    python run.py
    ```
    ")

/-- `gitignore`. -/
def gitignore : String :=
  dedent ("    __pycache__/
    .venv/
    *.pyc
    *.sqlite3
    instance/
    .env
    .DS_Store
    *.log
    migrations/versions/__pycache__/
    ")

/-! ## The write sequence of `make_tree` -/

/-- One filesystem action of `make_tree`: a `write` call (always with the
default `overwrite=False`, which `make_tree` never overrides) or a bare
`mkdir(parents=True, exist_ok=True)`. -/
inductive Action where
  | wr (path : RelPath) (content : String)
  | mk (dir : RelPath)
deriving Repr, DecidableEq

/-- Apply one action to the filesystem. -/
def step (fs : FS) : Action → FS
  | .wr p c => write fs p c false
  | .mk d => mkdirAll fs d

/-- The action sequence of `make_tree` (source lines 178–201), in program
order; the api entry is present exactly when `with_api` is set. -/
def actions (name : String) (with_api : Bool) : List Action :=
  [Action.wr ["requirements.txt"] reqs,
   Action.wr ["README.md"] (readme name),
   Action.wr [".gitignore"] gitignore,
   Action.wr ["run.py"] run_py,
   Action.wr ["wsgi.py"] wsgi_py,
   Action.wr ["config.py"] config_py,
   Action.wr [pkg, "__init__.py"] (init_py with_api),
   Action.wr [pkg, "extensions.py"] extensions_py,
   Action.wr [pkg, "routes.py"] routes_py,
   Action.wr [pkg, "models.py"] models_py,
   Action.wr [pkg, "forms.py"] forms_py,
   Action.wr [pkg, "templates", "base.html"] base_html,
   Action.wr [pkg, "templates", "index.html"] index_html,
   Action.wr [pkg, "static", "css", "main.css"] css_main,
   Action.wr [pkg, "static", "js", "main.js"] js_main]
  ++ (if with_api then [Action.wr [pkg, "api", "__init__.py"] api_init] else [])
  ++ [Action.mk ["migrations"],
      Action.wr ["tests", "test_basic.py"] test_basic]

/-- `make_tree(root, name, with_api)`: run the write sequence over the
subtree rooted at `root`. -/
def make_tree (fs : FS) (name : String) (with_api : Bool) : FS :=
  (actions name with_api).foldl step fs

/-- The content the emitter would write at path `p`: the first `write` action
for `p` in the sequence, if any. -/
def firstContent : List Action → RelPath → Option String
  | [], _ => none
  | Action.wr q c :: rest, p => if q = p then some c else firstContent rest p
  | Action.mk _ :: rest, p => firstContent rest p

/-- The standard generated content for path `p` under a given spec. -/
def genContent (name : String) (with_api : Bool) (p : RelPath) : Option String :=
  firstContent (actions name with_api) p

/-! ## pathlib paths (POSIX model) -/

/-- A `pathlib` path: an absolute flag and the component list. -/
structure PPath where
  absolute : Bool
  comps : List String
deriving Repr, DecidableEq

/-- `Path(a) / Path(b)`: when the right operand is absolute it replaces the
left one entirely; otherwise the components are appended. -/
def pathJoin (a b : PPath) : PPath :=
  if b.absolute then b else ⟨a.absolute, a.comps ++ b.comps⟩

/-- `Path(s)` for a string argument: absolute iff it starts with a slash;
components are the non-empty slash-separated pieces. -/
def pathOfString (s : String) : PPath :=
  ⟨s.data.head? == some '/',
   ((splitCh '/' s.data).filter (fun l => !l.isEmpty)).map String.mk⟩

/-- `Path(s).resolve()` (source line 228): interpret the path relative to the
current working directory; an already absolute path stays itself. -/
def resolvePath (cwd : PPath) (p : PPath) : PPath := pathJoin cwd p

/-- Render a path for display in messages. -/
def pathStr (p : PPath) : String :=
  (if p.absolute then ("/") else (""))
    ++ String.intercalate ("/") p.comps

/-- The virtual-environment target passed to the external tool
(source line 233: `root / args.venv`). -/
def venvTarget (root : PPath) (v : PPath) : PPath := pathJoin root v

/-! ## Best-effort post-steps: `make_venv` and `init_git`

External processes are modelled by oracle values: each `subprocess.run`
call with `check=True` either returns normally (`Except.ok ()`) or raises an
exception carrying a message (`Except.error msg`). -/

/-- `make_venv(root, venv_path)`: the lines it prints, given the outcome of
the single external call. The exception is caught and turned into a
warning; nothing propagates. -/
def make_venv (res : Except String Unit) (venv_path : PPath) : List String :=
  match res with
  | Except.ok _ => ["Created virtualenv at " ++ pathStr venv_path]
  | Except.error e => ["[warn] venv creation failed: " ++ e]

/-- The three external git commands issued by `init_git`. -/
inductive GitCmd where
  | gitInit
  | gitAdd
  | gitCommit
deriving Repr, DecidableEq

/-- Outcomes of the three git calls, as the environment would produce them
were each command issued. -/
structure GitEnv where
  initRes : Except String Unit
  addRes : Except String Unit
  commitRes : Except String Unit
deriving Repr

/-- `init_git(root)`: the three `subprocess.run(..., check=True)` calls are
issued sequentially inside one try block, so the first failure raises,
skips the remaining calls, and is caught by the single except clause.
Returns (commands actually issued, lines printed). -/
def init_git (env : GitEnv) : List GitCmd × List String :=
  match env.initRes with
  | Except.error e => ([GitCmd.gitInit], ["[warn] git init failed: " ++ e])
  | Except.ok _ =>
    match env.addRes with
    | Except.error e =>
      ([GitCmd.gitInit, GitCmd.gitAdd], ["[warn] git init failed: " ++ e])
    | Except.ok _ =>
      match env.commitRes with
      | Except.error e =>
        ([GitCmd.gitInit, GitCmd.gitAdd, GitCmd.gitCommit],
         ["[warn] git init failed: " ++ e])
      | Except.ok _ =>
        ([GitCmd.gitInit, GitCmd.gitAdd, GitCmd.gitCommit],
         ["Initialized git repository."])

/-! ## `main` -/

/-- The parsed command-line arguments (`argparse` result). -/
structure Args where
  name : String
  with_api : Bool
  init_git_flag : Bool
  venv : Option String
  force : Bool
deriving Repr, DecidableEq

/-- Python truthiness of `args.venv` (`if args.venv:`): `None` and the empty
string are falsy. -/
def optTruthy : Option String → Bool
  | none => false
  | some v => !(v == "")

/-- The resolved project root (source lines 228–229). -/
def rootOf (cwd : PPath) (args : Args) : PPath :=
  resolvePath cwd (pathOfString args.name)

/-- The trailing summary printed by `main` (source lines 238–247). -/
def summaryLines (root : PPath) (args : Args) : List String :=
  ["✅ Flask scaffold created at: " ++ pathStr root,
   "Next steps:",
   "  cd " ++ pathStr root]
  ++ (match args.venv with
      | some v =>
        if !(v == "") then
          ["  # activate venv: source " ++ v
            ++ "/bin/activate  (Windows: " ++ v ++ "\\Scripts\\activate)"]
        else []
      | none => [])
  ++ ["  pip install -r requirements.txt",
      "  flask --app wsgi:app db init  # set up migrations repo",
      "  flask --app wsgi:app db migrate -m 'init'",
      "  flask --app wsgi:app db upgrade",
      "  python run.py  # visit http://127.0.0.1:5000"]

/-- Everything `main` prints on stdout after the tree emission: the optional
venv step (source lines 232–233), the optional git step (lines 235–236) and
the summary. -/
def postLines (args : Args) (venvRes : Except String Unit) (git : GitEnv)
    (cwd : PPath) : List String :=
  let root := rootOf cwd args
  let venvLines :=
    if optTruthy args.venv then
      make_venv venvRes (venvTarget root (pathOfString (args.venv.getD (""))))
    else []
  let gitLines := if args.init_git_flag then (init_git git).2 else []
  venvLines ++ gitLines ++ summaryLines root args

/-- `main` after argument parsing, with all writes succeeding: emits the
tree (note that `args.force` is parsed but never forwarded to `make_tree`,
whose `write` calls all use the default `overwrite=False`), then runs the
optional best-effort steps, then prints the summary. Returns
(tree, stdout lines, exit code). -/
def mainRun (fs : FS) (args : Args) (venvRes : Except String Unit)
    (git : GitEnv) (cwd : PPath) : FS × List String × Nat :=
  (make_tree fs args.name args.with_api, postLines args venvRes git cwd, 0)

/-! ## Fallible emission

For the fatal-error claims, content writes may fail: the oracle `ok` says
whether writing the file at a given path succeeds. A failed write raises,
which aborts `make_tree` (and `main`) immediately: the error carries the
filesystem as left behind (parent directories of the failing path were
already created) and a diagnostic. Directory creation is assumed to
succeed. -/

/-- Fallible `write`: the existence check and skip happen before any I/O;
a failing content write raises after the parent mkdir. -/
def writeE (ok : RelPath → Bool) (fs : FS) (p : RelPath) (c : String)
    (overwrite : Bool) : Except (FS × String) FS :=
  if (lookupFile fs p).isSome && !overwrite then Except.ok fs
  else
    let fs' := mkdirParents fs p
    if ok p then Except.ok (setFile fs' p c)
    else Except.error (fs', "OSError: cannot write " ++ String.intercalate ("/") p)

/-- Fallible action step. -/
def stepE (ok : RelPath → Bool) (fs : FS) : Action → Except (FS × String) FS
  | Action.wr p c => writeE ok fs p c false
  | Action.mk d => Except.ok (mkdirAll fs d)

/-- Run a list of actions, stopping at the first raised error (no recovery,
no rollback, no retry). -/
def runActsE (ok : RelPath → Bool) : List Action → FS → Except (FS × String) FS
  | [], fs => Except.ok fs
  | a :: l, fs =>
    match stepE ok fs a with
    | Except.ok fs' => runActsE ok l fs'
    | Except.error e => Except.error e

/-- `main` with fallible writes: an exception escaping `make_tree` is
unhandled, so the post-steps and the summary never run, the interpreter
prints a traceback on standard error and the process exits 1. Returns
(final filesystem, stdout lines, stderr lines, exit code). -/
def mainRunE (ok : RelPath → Bool) (fs : FS) (args : Args)
    (venvRes : Except String Unit) (git : GitEnv) (cwd : PPath) :
    FS × List String × List String × Nat :=
  match runActsE ok (actions args.name args.with_api) fs with
  | Except.ok tree =>
    (tree, postLines args venvRes git cwd, [], 0)
  | Except.error (fsErr, diag) =>
    (fsErr, [], ["Traceback (most recent call last): " ++ diag], 1)

/-! ## Auxiliary definitions for the statements -/

/-- Left-biased choice on optional contents. -/
def orO (a b : Option String) : Option String :=
  match a with
  | some v => some v
  | none => b

/-- Whether an action's write (if it is one) succeeds under the oracle. -/
def actOk (ok : RelPath → Bool) : Action → Bool
  | Action.wr q _ => ok q
  | Action.mk _ => true

/-- A concrete working directory for closed instances. -/
def cwd0 : PPath := ⟨true, ["srv"]⟩

/-- Git environment in which all three calls succeed. -/
def gitAllOk : GitEnv := ⟨Except.ok (), Except.ok (), Except.ok ()⟩

/-- Git environment in which the initial `git init` call fails. -/
def gitInitFails : GitEnv :=
  ⟨Except.error ("exit status 128"), Except.ok (), Except.ok ()⟩

/-- Git environment in which `git init` succeeds and `git add -A` fails. -/
def gitAddFails : GitEnv :=
  ⟨Except.ok (), Except.error ("exit status 1"), Except.ok ()⟩

/-- A target directory holding a pre-existing `README.md` with sentinel
content. -/
def sentinelFS : FS := ⟨[(["README.md"], "SENTINEL")], []⟩

/-- `Demo` run with `--force`. -/
def argsDemoForce : Args := ⟨"Demo", false, false, none, true⟩

/-- `Demo` run with no options. -/
def argsDemoPlain : Args := ⟨"Demo", false, false, none, false⟩

/-- `Demo` run with `--venv .venv`. -/
def argsDemoVenv : Args := ⟨"Demo", false, false, some (".venv"), false⟩

/-- Write oracle that fails exactly on `run.py`. -/
def okButRunPy : RelPath → Bool := fun q => decide (q ≠ ["run.py"])

/-! ## General lemmas about the emission fold -/

theorem orO_none_right (a : Option String) : orO a none = a := by
  cases a <;> rfl

theorem addDir_files (fs : FS) (d : RelPath) : (addDir fs d).files = fs.files := by
  unfold addDir; split <;> rfl

theorem foldl_addDir_files (l : List RelPath) (fs : FS) :
    (l.foldl addDir fs).files = fs.files := by
  induction l generalizing fs with
  | nil => rfl
  | cons d l ih => rw [List.foldl_cons, ih, addDir_files]

theorem mkdirParents_files (fs : FS) (p : RelPath) :
    (mkdirParents fs p).files = fs.files :=
  foldl_addDir_files _ _

theorem mkdirAll_files (fs : FS) (d : RelPath) :
    (mkdirAll fs d).files = fs.files := by
  unfold mkdirAll; rw [addDir_files, mkdirParents_files]

theorem lookupFile_congr (fs fs' : FS) (h : fs.files = fs'.files) (p : RelPath) :
    lookupFile fs p = lookupFile fs' p := by
  unfold lookupFile; rw [h]

theorem lookupEntries_setEntry (l : List (RelPath × String)) (p : RelPath)
    (c : String) (q : RelPath) :
    lookupEntries (setEntry l p c) q
      = if q = p then some c else lookupEntries l q := by
  induction l with
  | nil =>
    by_cases h : q = p <;> simp [setEntry, lookupEntries, h]
  | cons kv rest ih =>
    obtain ⟨k, v⟩ := kv
    by_cases hkp : k = p
    · subst hkp
      by_cases hq : q = k <;> simp [setEntry, lookupEntries, hq]
    · by_cases hq : q = k
      · subst hq
        simp [setEntry, lookupEntries, hkp]
      · simp [setEntry, lookupEntries, hkp, hq, ih]

theorem lookupFile_setFile (fs : FS) (p : RelPath) (c : String) (q : RelPath) :
    lookupFile (setFile fs p c) q
      = if q = p then some c else lookupFile fs q :=
  lookupEntries_setEntry fs.files p c q

theorem lookupFile_mkdirParents (fs : FS) (p q : RelPath) :
    lookupFile (mkdirParents fs p) q = lookupFile fs q :=
  lookupFile_congr _ _ (mkdirParents_files fs p) q

theorem lookupFile_write (fs : FS) (p : RelPath) (c : String) (q : RelPath) :
    lookupFile (write fs p c false) q
      = if q = p then orO (lookupFile fs p) (some c) else lookupFile fs q := by
  unfold write
  by_cases hq : q = p
  · subst hq
    cases hl : lookupFile fs q with
    | some v => simp [hl, orO]
    | none => simp [hl, lookupFile_setFile, orO]
  · cases hl : lookupFile fs p with
    | some v => simp [hl, hq]
    | none => simp [hl, hq, lookupFile_setFile, lookupFile_mkdirParents]

theorem lookupFile_foldl_step (l : List Action) (fs : FS) (p : RelPath) :
    lookupFile (l.foldl step fs) p = orO (lookupFile fs p) (firstContent l p) := by
  induction l generalizing fs with
  | nil => rw [List.foldl_nil, firstContent, orO_none_right]
  | cons a l ih =>
    cases a with
    | wr q c =>
      rw [List.foldl_cons, ih]
      show orO (lookupFile (write fs q c false) p) (firstContent l p) = _
      rw [lookupFile_write]
      by_cases hpq : p = q
      · subst hpq
        simp only [if_pos rfl, firstContent, if_pos rfl]
        cases hl : lookupFile fs p <;> simp [orO]
      · simp only [if_neg hpq, firstContent, if_neg (fun h : q = p => hpq h.symm)]
    | mk d =>
      rw [List.foldl_cons, ih,
        lookupFile_congr (step fs (Action.mk d)) fs (mkdirAll_files fs d) p]
      rfl

theorem make_tree_lookup (fs : FS) (name : String) (api : Bool) (p : RelPath) :
    lookupFile (make_tree fs name api) p
      = orO (lookupFile fs p) (genContent name api p) :=
  lookupFile_foldl_step _ fs p

/-! ## Lemmas about the fallible run -/

theorem writeE_ok_eq (ok : RelPath → Bool) (fs : FS) (p : RelPath) (c : String)
    (h : ok p = true) :
    writeE ok fs p c false = Except.ok (write fs p c false) := by
  unfold writeE write
  cases hC : ((lookupFile fs p).isSome && !false) with
  | true => simp [hC]
  | false => simp [hC, h]

theorem stepE_ok_eq (ok : RelPath → Bool) (fs : FS) (a : Action)
    (h : actOk ok a = true) :
    stepE ok fs a = Except.ok (step fs a) := by
  cases a with
  | wr q c => exact writeE_ok_eq ok fs q c h
  | mk d => rfl

theorem runActsE_all_ok (ok : RelPath → Bool) :
    ∀ (l : List Action) (fs : FS), l.all (actOk ok) = true →
      runActsE ok l fs = Except.ok (l.foldl step fs) := by
  intro l
  induction l with
  | nil => intro fs _; rfl
  | cons a l ih =>
    intro fs h
    rw [List.all_cons, Bool.and_eq_true] at h
    simp only [runActsE, stepE_ok_eq ok fs a h.1]
    rw [ih _ h.2, List.foldl_cons]

theorem runActsE_append (ok : RelPath → Bool) (l1 l2 : List Action) (fs : FS) :
    runActsE ok (l1 ++ l2) fs
      = (match runActsE ok l1 fs with
         | Except.ok fs' => runActsE ok l2 fs'
         | Except.error e => Except.error e) := by
  induction l1 generalizing fs with
  | nil => rfl
  | cons a l ih =>
    rw [List.cons_append]
    simp only [runActsE]
    cases stepE ok fs a with
    | ok fs' => exact ih fs'
    | error e => rfl

theorem writeE_fail_eq (ok : RelPath → Bool) (fs : FS) (p : RelPath) (c : String)
    (hl : lookupFile fs p = none) (h : ok p = false) :
    writeE ok fs p c false
      = Except.error (mkdirParents fs p,
          "OSError: cannot write " ++ String.intercalate ("/") p) := by
  unfold writeE
  simp [hl, h]

set_option maxRecDepth 80000
set_option maxHeartbeats 4000000

/-- Full evaluation of the emission on an empty target with `withApi=false`:
the project name only parameterizes the README content. -/
theorem make_tree_empty_false_eval (name : String) :
    make_tree emptyFS name false = (⟨[(["requirements.txt"], reqs), (["README.md"], readme name), ([".gitignore"], gitignore), (["run.py"], run_py), (["wsgi.py"], wsgi_py), (["config.py"], config_py), (["app", "__init__.py"], init_py false), (["app", "extensions.py"], extensions_py), (["app", "routes.py"], routes_py), (["app", "models.py"], models_py), (["app", "forms.py"], forms_py), (["app", "templates", "base.html"], base_html), (["app", "templates", "index.html"], index_html), (["app", "static", "css", "main.css"], css_main), (["app", "static", "js", "main.js"], js_main), (["tests", "test_basic.py"], test_basic)], [["app"], ["app", "templates"], ["app", "static"], ["app", "static", "css"], ["app", "static", "js"], ["migrations"], ["tests"]]⟩ : FS) := by
  show (actions name false).foldl step emptyFS = _
  rw [show actions name false = [Action.wr ["requirements.txt"] (reqs),
      Action.wr ["README.md"] (readme name),
      Action.wr [".gitignore"] (gitignore),
      Action.wr ["run.py"] (run_py),
      Action.wr ["wsgi.py"] (wsgi_py),
      Action.wr ["config.py"] (config_py),
      Action.wr ["app", "__init__.py"] (init_py false),
      Action.wr ["app", "extensions.py"] (extensions_py),
      Action.wr ["app", "routes.py"] (routes_py),
      Action.wr ["app", "models.py"] (models_py),
      Action.wr ["app", "forms.py"] (forms_py),
      Action.wr ["app", "templates", "base.html"] (base_html),
      Action.wr ["app", "templates", "index.html"] (index_html),
      Action.wr ["app", "static", "css", "main.css"] (css_main),
      Action.wr ["app", "static", "js", "main.js"] (js_main),
      Action.mk ["migrations"],
      Action.wr ["tests", "test_basic.py"] (test_basic)] from rfl]
  rw [List.foldl_cons, show step emptyFS (Action.wr ["requirements.txt"] (reqs)) = (⟨[(["requirements.txt"], reqs)], []⟩ : FS) from rfl]
  rw [List.foldl_cons, show step (⟨[(["requirements.txt"], reqs)], []⟩ : FS) (Action.wr ["README.md"] (readme name)) = (⟨[(["requirements.txt"], reqs), (["README.md"], readme name)], []⟩ : FS) from rfl]
  rw [List.foldl_cons, show step (⟨[(["requirements.txt"], reqs), (["README.md"], readme name)], []⟩ : FS) (Action.wr [".gitignore"] (gitignore)) = (⟨[(["requirements.txt"], reqs), (["README.md"], readme name), ([".gitignore"], gitignore)], []⟩ : FS) from rfl]
  rw [List.foldl_cons, show step (⟨[(["requirements.txt"], reqs), (["README.md"], readme name), ([".gitignore"], gitignore)], []⟩ : FS) (Action.wr ["run.py"] (run_py)) = (⟨[(["requirements.txt"], reqs), (["README.md"], readme name), ([".gitignore"], gitignore), (["run.py"], run_py)], []⟩ : FS) from rfl]
  rw [List.foldl_cons, show step (⟨[(["requirements.txt"], reqs), (["README.md"], readme name), ([".gitignore"], gitignore), (["run.py"], run_py)], []⟩ : FS) (Action.wr ["wsgi.py"] (wsgi_py)) = (⟨[(["requirements.txt"], reqs), (["README.md"], readme name), ([".gitignore"], gitignore), (["run.py"], run_py), (["wsgi.py"], wsgi_py)], []⟩ : FS) from rfl]
  rw [List.foldl_cons, show step (⟨[(["requirements.txt"], reqs), (["README.md"], readme name), ([".gitignore"], gitignore), (["run.py"], run_py), (["wsgi.py"], wsgi_py)], []⟩ : FS) (Action.wr ["config.py"] (config_py)) = (⟨[(["requirements.txt"], reqs), (["README.md"], readme name), ([".gitignore"], gitignore), (["run.py"], run_py), (["wsgi.py"], wsgi_py), (["config.py"], config_py)], []⟩ : FS) from rfl]
  rw [List.foldl_cons, show step (⟨[(["requirements.txt"], reqs), (["README.md"], readme name), ([".gitignore"], gitignore), (["run.py"], run_py), (["wsgi.py"], wsgi_py), (["config.py"], config_py)], []⟩ : FS) (Action.wr ["app", "__init__.py"] (init_py false)) = (⟨[(["requirements.txt"], reqs), (["README.md"], readme name), ([".gitignore"], gitignore), (["run.py"], run_py), (["wsgi.py"], wsgi_py), (["config.py"], config_py), (["app", "__init__.py"], init_py false)], [["app"]]⟩ : FS) from rfl]
  rw [List.foldl_cons, show step (⟨[(["requirements.txt"], reqs), (["README.md"], readme name), ([".gitignore"], gitignore), (["run.py"], run_py), (["wsgi.py"], wsgi_py), (["config.py"], config_py), (["app", "__init__.py"], init_py false)], [["app"]]⟩ : FS) (Action.wr ["app", "extensions.py"] (extensions_py)) = (⟨[(["requirements.txt"], reqs), (["README.md"], readme name), ([".gitignore"], gitignore), (["run.py"], run_py), (["wsgi.py"], wsgi_py), (["config.py"], config_py), (["app", "__init__.py"], init_py false), (["app", "extensions.py"], extensions_py)], [["app"]]⟩ : FS) from rfl]
  rw [List.foldl_cons, show step (⟨[(["requirements.txt"], reqs), (["README.md"], readme name), ([".gitignore"], gitignore), (["run.py"], run_py), (["wsgi.py"], wsgi_py), (["config.py"], config_py), (["app", "__init__.py"], init_py false), (["app", "extensions.py"], extensions_py)], [["app"]]⟩ : FS) (Action.wr ["app", "routes.py"] (routes_py)) = (⟨[(["requirements.txt"], reqs), (["README.md"], readme name), ([".gitignore"], gitignore), (["run.py"], run_py), (["wsgi.py"], wsgi_py), (["config.py"], config_py), (["app", "__init__.py"], init_py false), (["app", "extensions.py"], extensions_py), (["app", "routes.py"], routes_py)], [["app"]]⟩ : FS) from rfl]
  rw [List.foldl_cons, show step (⟨[(["requirements.txt"], reqs), (["README.md"], readme name), ([".gitignore"], gitignore), (["run.py"], run_py), (["wsgi.py"], wsgi_py), (["config.py"], config_py), (["app", "__init__.py"], init_py false), (["app", "extensions.py"], extensions_py), (["app", "routes.py"], routes_py)], [["app"]]⟩ : FS) (Action.wr ["app", "models.py"] (models_py)) = (⟨[(["requirements.txt"], reqs), (["README.md"], readme name), ([".gitignore"], gitignore), (["run.py"], run_py), (["wsgi.py"], wsgi_py), (["config.py"], config_py), (["app", "__init__.py"], init_py false), (["app", "extensions.py"], extensions_py), (["app", "routes.py"], routes_py), (["app", "models.py"], models_py)], [["app"]]⟩ : FS) from rfl]
  rw [List.foldl_cons, show step (⟨[(["requirements.txt"], reqs), (["README.md"], readme name), ([".gitignore"], gitignore), (["run.py"], run_py), (["wsgi.py"], wsgi_py), (["config.py"], config_py), (["app", "__init__.py"], init_py false), (["app", "extensions.py"], extensions_py), (["app", "routes.py"], routes_py), (["app", "models.py"], models_py)], [["app"]]⟩ : FS) (Action.wr ["app", "forms.py"] (forms_py)) = (⟨[(["requirements.txt"], reqs), (["README.md"], readme name), ([".gitignore"], gitignore), (["run.py"], run_py), (["wsgi.py"], wsgi_py), (["config.py"], config_py), (["app", "__init__.py"], init_py false), (["app", "extensions.py"], extensions_py), (["app", "routes.py"], routes_py), (["app", "models.py"], models_py), (["app", "forms.py"], forms_py)], [["app"]]⟩ : FS) from rfl]
  rw [List.foldl_cons, show step (⟨[(["requirements.txt"], reqs), (["README.md"], readme name), ([".gitignore"], gitignore), (["run.py"], run_py), (["wsgi.py"], wsgi_py), (["config.py"], config_py), (["app", "__init__.py"], init_py false), (["app", "extensions.py"], extensions_py), (["app", "routes.py"], routes_py), (["app", "models.py"], models_py), (["app", "forms.py"], forms_py)], [["app"]]⟩ : FS) (Action.wr ["app", "templates", "base.html"] (base_html)) = (⟨[(["requirements.txt"], reqs), (["README.md"], readme name), ([".gitignore"], gitignore), (["run.py"], run_py), (["wsgi.py"], wsgi_py), (["config.py"], config_py), (["app", "__init__.py"], init_py false), (["app", "extensions.py"], extensions_py), (["app", "routes.py"], routes_py), (["app", "models.py"], models_py), (["app", "forms.py"], forms_py), (["app", "templates", "base.html"], base_html)], [["app"], ["app", "templates"]]⟩ : FS) from rfl]
  rw [List.foldl_cons, show step (⟨[(["requirements.txt"], reqs), (["README.md"], readme name), ([".gitignore"], gitignore), (["run.py"], run_py), (["wsgi.py"], wsgi_py), (["config.py"], config_py), (["app", "__init__.py"], init_py false), (["app", "extensions.py"], extensions_py), (["app", "routes.py"], routes_py), (["app", "models.py"], models_py), (["app", "forms.py"], forms_py), (["app", "templates", "base.html"], base_html)], [["app"], ["app", "templates"]]⟩ : FS) (Action.wr ["app", "templates", "index.html"] (index_html)) = (⟨[(["requirements.txt"], reqs), (["README.md"], readme name), ([".gitignore"], gitignore), (["run.py"], run_py), (["wsgi.py"], wsgi_py), (["config.py"], config_py), (["app", "__init__.py"], init_py false), (["app", "extensions.py"], extensions_py), (["app", "routes.py"], routes_py), (["app", "models.py"], models_py), (["app", "forms.py"], forms_py), (["app", "templates", "base.html"], base_html), (["app", "templates", "index.html"], index_html)], [["app"], ["app", "templates"]]⟩ : FS) from rfl]
  rw [List.foldl_cons, show step (⟨[(["requirements.txt"], reqs), (["README.md"], readme name), ([".gitignore"], gitignore), (["run.py"], run_py), (["wsgi.py"], wsgi_py), (["config.py"], config_py), (["app", "__init__.py"], init_py false), (["app", "extensions.py"], extensions_py), (["app", "routes.py"], routes_py), (["app", "models.py"], models_py), (["app", "forms.py"], forms_py), (["app", "templates", "base.html"], base_html), (["app", "templates", "index.html"], index_html)], [["app"], ["app", "templates"]]⟩ : FS) (Action.wr ["app", "static", "css", "main.css"] (css_main)) = (⟨[(["requirements.txt"], reqs), (["README.md"], readme name), ([".gitignore"], gitignore), (["run.py"], run_py), (["wsgi.py"], wsgi_py), (["config.py"], config_py), (["app", "__init__.py"], init_py false), (["app", "extensions.py"], extensions_py), (["app", "routes.py"], routes_py), (["app", "models.py"], models_py), (["app", "forms.py"], forms_py), (["app", "templates", "base.html"], base_html), (["app", "templates", "index.html"], index_html), (["app", "static", "css", "main.css"], css_main)], [["app"], ["app", "templates"], ["app", "static"], ["app", "static", "css"]]⟩ : FS) from rfl]
  rw [List.foldl_cons, show step (⟨[(["requirements.txt"], reqs), (["README.md"], readme name), ([".gitignore"], gitignore), (["run.py"], run_py), (["wsgi.py"], wsgi_py), (["config.py"], config_py), (["app", "__init__.py"], init_py false), (["app", "extensions.py"], extensions_py), (["app", "routes.py"], routes_py), (["app", "models.py"], models_py), (["app", "forms.py"], forms_py), (["app", "templates", "base.html"], base_html), (["app", "templates", "index.html"], index_html), (["app", "static", "css", "main.css"], css_main)], [["app"], ["app", "templates"], ["app", "static"], ["app", "static", "css"]]⟩ : FS) (Action.wr ["app", "static", "js", "main.js"] (js_main)) = (⟨[(["requirements.txt"], reqs), (["README.md"], readme name), ([".gitignore"], gitignore), (["run.py"], run_py), (["wsgi.py"], wsgi_py), (["config.py"], config_py), (["app", "__init__.py"], init_py false), (["app", "extensions.py"], extensions_py), (["app", "routes.py"], routes_py), (["app", "models.py"], models_py), (["app", "forms.py"], forms_py), (["app", "templates", "base.html"], base_html), (["app", "templates", "index.html"], index_html), (["app", "static", "css", "main.css"], css_main), (["app", "static", "js", "main.js"], js_main)], [["app"], ["app", "templates"], ["app", "static"], ["app", "static", "css"], ["app", "static", "js"]]⟩ : FS) from rfl]
  rw [List.foldl_cons, show step (⟨[(["requirements.txt"], reqs), (["README.md"], readme name), ([".gitignore"], gitignore), (["run.py"], run_py), (["wsgi.py"], wsgi_py), (["config.py"], config_py), (["app", "__init__.py"], init_py false), (["app", "extensions.py"], extensions_py), (["app", "routes.py"], routes_py), (["app", "models.py"], models_py), (["app", "forms.py"], forms_py), (["app", "templates", "base.html"], base_html), (["app", "templates", "index.html"], index_html), (["app", "static", "css", "main.css"], css_main), (["app", "static", "js", "main.js"], js_main)], [["app"], ["app", "templates"], ["app", "static"], ["app", "static", "css"], ["app", "static", "js"]]⟩ : FS) (Action.mk ["migrations"]) = (⟨[(["requirements.txt"], reqs), (["README.md"], readme name), ([".gitignore"], gitignore), (["run.py"], run_py), (["wsgi.py"], wsgi_py), (["config.py"], config_py), (["app", "__init__.py"], init_py false), (["app", "extensions.py"], extensions_py), (["app", "routes.py"], routes_py), (["app", "models.py"], models_py), (["app", "forms.py"], forms_py), (["app", "templates", "base.html"], base_html), (["app", "templates", "index.html"], index_html), (["app", "static", "css", "main.css"], css_main), (["app", "static", "js", "main.js"], js_main)], [["app"], ["app", "templates"], ["app", "static"], ["app", "static", "css"], ["app", "static", "js"], ["migrations"]]⟩ : FS) from rfl]
  rw [List.foldl_cons, show step (⟨[(["requirements.txt"], reqs), (["README.md"], readme name), ([".gitignore"], gitignore), (["run.py"], run_py), (["wsgi.py"], wsgi_py), (["config.py"], config_py), (["app", "__init__.py"], init_py false), (["app", "extensions.py"], extensions_py), (["app", "routes.py"], routes_py), (["app", "models.py"], models_py), (["app", "forms.py"], forms_py), (["app", "templates", "base.html"], base_html), (["app", "templates", "index.html"], index_html), (["app", "static", "css", "main.css"], css_main), (["app", "static", "js", "main.js"], js_main)], [["app"], ["app", "templates"], ["app", "static"], ["app", "static", "css"], ["app", "static", "js"], ["migrations"]]⟩ : FS) (Action.wr ["tests", "test_basic.py"] (test_basic)) = (⟨[(["requirements.txt"], reqs), (["README.md"], readme name), ([".gitignore"], gitignore), (["run.py"], run_py), (["wsgi.py"], wsgi_py), (["config.py"], config_py), (["app", "__init__.py"], init_py false), (["app", "extensions.py"], extensions_py), (["app", "routes.py"], routes_py), (["app", "models.py"], models_py), (["app", "forms.py"], forms_py), (["app", "templates", "base.html"], base_html), (["app", "templates", "index.html"], index_html), (["app", "static", "css", "main.css"], css_main), (["app", "static", "js", "main.js"], js_main), (["tests", "test_basic.py"], test_basic)], [["app"], ["app", "templates"], ["app", "static"], ["app", "static", "css"], ["app", "static", "js"], ["migrations"], ["tests"]]⟩ : FS) from rfl]
  rw [List.foldl_nil]

/-- Full evaluation of the emission on an empty target with `withApi=true`:
the project name only parameterizes the README content. -/
theorem make_tree_empty_true_eval (name : String) :
    make_tree emptyFS name true = (⟨[(["requirements.txt"], reqs), (["README.md"], readme name), ([".gitignore"], gitignore), (["run.py"], run_py), (["wsgi.py"], wsgi_py), (["config.py"], config_py), (["app", "__init__.py"], init_py true), (["app", "extensions.py"], extensions_py), (["app", "routes.py"], routes_py), (["app", "models.py"], models_py), (["app", "forms.py"], forms_py), (["app", "templates", "base.html"], base_html), (["app", "templates", "index.html"], index_html), (["app", "static", "css", "main.css"], css_main), (["app", "static", "js", "main.js"], js_main), (["app", "api", "__init__.py"], api_init), (["tests", "test_basic.py"], test_basic)], [["app"], ["app", "templates"], ["app", "static"], ["app", "static", "css"], ["app", "static", "js"], ["app", "api"], ["migrations"], ["tests"]]⟩ : FS) := by
  show (actions name true).foldl step emptyFS = _
  rw [show actions name true = [Action.wr ["requirements.txt"] (reqs),
      Action.wr ["README.md"] (readme name),
      Action.wr [".gitignore"] (gitignore),
      Action.wr ["run.py"] (run_py),
      Action.wr ["wsgi.py"] (wsgi_py),
      Action.wr ["config.py"] (config_py),
      Action.wr ["app", "__init__.py"] (init_py true),
      Action.wr ["app", "extensions.py"] (extensions_py),
      Action.wr ["app", "routes.py"] (routes_py),
      Action.wr ["app", "models.py"] (models_py),
      Action.wr ["app", "forms.py"] (forms_py),
      Action.wr ["app", "templates", "base.html"] (base_html),
      Action.wr ["app", "templates", "index.html"] (index_html),
      Action.wr ["app", "static", "css", "main.css"] (css_main),
      Action.wr ["app", "static", "js", "main.js"] (js_main),
      Action.wr ["app", "api", "__init__.py"] (api_init),
      Action.mk ["migrations"],
      Action.wr ["tests", "test_basic.py"] (test_basic)] from rfl]
  rw [List.foldl_cons, show step emptyFS (Action.wr ["requirements.txt"] (reqs)) = (⟨[(["requirements.txt"], reqs)], []⟩ : FS) from rfl]
  rw [List.foldl_cons, show step (⟨[(["requirements.txt"], reqs)], []⟩ : FS) (Action.wr ["README.md"] (readme name)) = (⟨[(["requirements.txt"], reqs), (["README.md"], readme name)], []⟩ : FS) from rfl]
  rw [List.foldl_cons, show step (⟨[(["requirements.txt"], reqs), (["README.md"], readme name)], []⟩ : FS) (Action.wr [".gitignore"] (gitignore)) = (⟨[(["requirements.txt"], reqs), (["README.md"], readme name), ([".gitignore"], gitignore)], []⟩ : FS) from rfl]
  rw [List.foldl_cons, show step (⟨[(["requirements.txt"], reqs), (["README.md"], readme name), ([".gitignore"], gitignore)], []⟩ : FS) (Action.wr ["run.py"] (run_py)) = (⟨[(["requirements.txt"], reqs), (["README.md"], readme name), ([".gitignore"], gitignore), (["run.py"], run_py)], []⟩ : FS) from rfl]
  rw [List.foldl_cons, show step (⟨[(["requirements.txt"], reqs), (["README.md"], readme name), ([".gitignore"], gitignore), (["run.py"], run_py)], []⟩ : FS) (Action.wr ["wsgi.py"] (wsgi_py)) = (⟨[(["requirements.txt"], reqs), (["README.md"], readme name), ([".gitignore"], gitignore), (["run.py"], run_py), (["wsgi.py"], wsgi_py)], []⟩ : FS) from rfl]
  rw [List.foldl_cons, show step (⟨[(["requirements.txt"], reqs), (["README.md"], readme name), ([".gitignore"], gitignore), (["run.py"], run_py), (["wsgi.py"], wsgi_py)], []⟩ : FS) (Action.wr ["config.py"] (config_py)) = (⟨[(["requirements.txt"], reqs), (["README.md"], readme name), ([".gitignore"], gitignore), (["run.py"], run_py), (["wsgi.py"], wsgi_py), (["config.py"], config_py)], []⟩ : FS) from rfl]
  rw [List.foldl_cons, show step (⟨[(["requirements.txt"], reqs), (["README.md"], readme name), ([".gitignore"], gitignore), (["run.py"], run_py), (["wsgi.py"], wsgi_py), (["config.py"], config_py)], []⟩ : FS) (Action.wr ["app", "__init__.py"] (init_py true)) = (⟨[(["requirements.txt"], reqs), (["README.md"], readme name), ([".gitignore"], gitignore), (["run.py"], run_py), (["wsgi.py"], wsgi_py), (["config.py"], config_py), (["app", "__init__.py"], init_py true)], [["app"]]⟩ : FS) from rfl]
  rw [List.foldl_cons, show step (⟨[(["requirements.txt"], reqs), (["README.md"], readme name), ([".gitignore"], gitignore), (["run.py"], run_py), (["wsgi.py"], wsgi_py), (["config.py"], config_py), (["app", "__init__.py"], init_py true)], [["app"]]⟩ : FS) (Action.wr ["app", "extensions.py"] (extensions_py)) = (⟨[(["requirements.txt"], reqs), (["README.md"], readme name), ([".gitignore"], gitignore), (["run.py"], run_py), (["wsgi.py"], wsgi_py), (["config.py"], config_py), (["app", "__init__.py"], init_py true), (["app", "extensions.py"], extensions_py)], [["app"]]⟩ : FS) from rfl]
  rw [List.foldl_cons, show step (⟨[(["requirements.txt"], reqs), (["README.md"], readme name), ([".gitignore"], gitignore), (["run.py"], run_py), (["wsgi.py"], wsgi_py), (["config.py"], config_py), (["app", "__init__.py"], init_py true), (["app", "extensions.py"], extensions_py)], [["app"]]⟩ : FS) (Action.wr ["app", "routes.py"] (routes_py)) = (⟨[(["requirements.txt"], reqs), (["README.md"], readme name), ([".gitignore"], gitignore), (["run.py"], run_py), (["wsgi.py"], wsgi_py), (["config.py"], config_py), (["app", "__init__.py"], init_py true), (["app", "extensions.py"], extensions_py), (["app", "routes.py"], routes_py)], [["app"]]⟩ : FS) from rfl]
  rw [List.foldl_cons, show step (⟨[(["requirements.txt"], reqs), (["README.md"], readme name), ([".gitignore"], gitignore), (["run.py"], run_py), (["wsgi.py"], wsgi_py), (["config.py"], config_py), (["app", "__init__.py"], init_py true), (["app", "extensions.py"], extensions_py), (["app", "routes.py"], routes_py)], [["app"]]⟩ : FS) (Action.wr ["app", "models.py"] (models_py)) = (⟨[(["requirements.txt"], reqs), (["README.md"], readme name), ([".gitignore"], gitignore), (["run.py"], run_py), (["wsgi.py"], wsgi_py), (["config.py"], config_py), (["app", "__init__.py"], init_py true), (["app", "extensions.py"], extensions_py), (["app", "routes.py"], routes_py), (["app", "models.py"], models_py)], [["app"]]⟩ : FS) from rfl]
  rw [List.foldl_cons, show step (⟨[(["requirements.txt"], reqs), (["README.md"], readme name), ([".gitignore"], gitignore), (["run.py"], run_py), (["wsgi.py"], wsgi_py), (["config.py"], config_py), (["app", "__init__.py"], init_py true), (["app", "extensions.py"], extensions_py), (["app", "routes.py"], routes_py), (["app", "models.py"], models_py)], [["app"]]⟩ : FS) (Action.wr ["app", "forms.py"] (forms_py)) = (⟨[(["requirements.txt"], reqs), (["README.md"], readme name), ([".gitignore"], gitignore), (["run.py"], run_py), (["wsgi.py"], wsgi_py), (["config.py"], config_py), (["app", "__init__.py"], init_py true), (["app", "extensions.py"], extensions_py), (["app", "routes.py"], routes_py), (["app", "models.py"], models_py), (["app", "forms.py"], forms_py)], [["app"]]⟩ : FS) from rfl]
  rw [List.foldl_cons, show step (⟨[(["requirements.txt"], reqs), (["README.md"], readme name), ([".gitignore"], gitignore), (["run.py"], run_py), (["wsgi.py"], wsgi_py), (["config.py"], config_py), (["app", "__init__.py"], init_py true), (["app", "extensions.py"], extensions_py), (["app", "routes.py"], routes_py), (["app", "models.py"], models_py), (["app", "forms.py"], forms_py)], [["app"]]⟩ : FS) (Action.wr ["app", "templates", "base.html"] (base_html)) = (⟨[(["requirements.txt"], reqs), (["README.md"], readme name), ([".gitignore"], gitignore), (["run.py"], run_py), (["wsgi.py"], wsgi_py), (["config.py"], config_py), (["app", "__init__.py"], init_py true), (["app", "extensions.py"], extensions_py), (["app", "routes.py"], routes_py), (["app", "models.py"], models_py), (["app", "forms.py"], forms_py), (["app", "templates", "base.html"], base_html)], [["app"], ["app", "templates"]]⟩ : FS) from rfl]
  rw [List.foldl_cons, show step (⟨[(["requirements.txt"], reqs), (["README.md"], readme name), ([".gitignore"], gitignore), (["run.py"], run_py), (["wsgi.py"], wsgi_py), (["config.py"], config_py), (["app", "__init__.py"], init_py true), (["app", "extensions.py"], extensions_py), (["app", "routes.py"], routes_py), (["app", "models.py"], models_py), (["app", "forms.py"], forms_py), (["app", "templates", "base.html"], base_html)], [["app"], ["app", "templates"]]⟩ : FS) (Action.wr ["app", "templates", "index.html"] (index_html)) = (⟨[(["requirements.txt"], reqs), (["README.md"], readme name), ([".gitignore"], gitignore), (["run.py"], run_py), (["wsgi.py"], wsgi_py), (["config.py"], config_py), (["app", "__init__.py"], init_py true), (["app", "extensions.py"], extensions_py), (["app", "routes.py"], routes_py), (["app", "models.py"], models_py), (["app", "forms.py"], forms_py), (["app", "templates", "base.html"], base_html), (["app", "templates", "index.html"], index_html)], [["app"], ["app", "templates"]]⟩ : FS) from rfl]
  rw [List.foldl_cons, show step (⟨[(["requirements.txt"], reqs), (["README.md"], readme name), ([".gitignore"], gitignore), (["run.py"], run_py), (["wsgi.py"], wsgi_py), (["config.py"], config_py), (["app", "__init__.py"], init_py true), (["app", "extensions.py"], extensions_py), (["app", "routes.py"], routes_py), (["app", "models.py"], models_py), (["app", "forms.py"], forms_py), (["app", "templates", "base.html"], base_html), (["app", "templates", "index.html"], index_html)], [["app"], ["app", "templates"]]⟩ : FS) (Action.wr ["app", "static", "css", "main.css"] (css_main)) = (⟨[(["requirements.txt"], reqs), (["README.md"], readme name), ([".gitignore"], gitignore), (["run.py"], run_py), (["wsgi.py"], wsgi_py), (["config.py"], config_py), (["app", "__init__.py"], init_py true), (["app", "extensions.py"], extensions_py), (["app", "routes.py"], routes_py), (["app", "models.py"], models_py), (["app", "forms.py"], forms_py), (["app", "templates", "base.html"], base_html), (["app", "templates", "index.html"], index_html), (["app", "static", "css", "main.css"], css_main)], [["app"], ["app", "templates"], ["app", "static"], ["app", "static", "css"]]⟩ : FS) from rfl]
  rw [List.foldl_cons, show step (⟨[(["requirements.txt"], reqs), (["README.md"], readme name), ([".gitignore"], gitignore), (["run.py"], run_py), (["wsgi.py"], wsgi_py), (["config.py"], config_py), (["app", "__init__.py"], init_py true), (["app", "extensions.py"], extensions_py), (["app", "routes.py"], routes_py), (["app", "models.py"], models_py), (["app", "forms.py"], forms_py), (["app", "templates", "base.html"], base_html), (["app", "templates", "index.html"], index_html), (["app", "static", "css", "main.css"], css_main)], [["app"], ["app", "templates"], ["app", "static"], ["app", "static", "css"]]⟩ : FS) (Action.wr ["app", "static", "js", "main.js"] (js_main)) = (⟨[(["requirements.txt"], reqs), (["README.md"], readme name), ([".gitignore"], gitignore), (["run.py"], run_py), (["wsgi.py"], wsgi_py), (["config.py"], config_py), (["app", "__init__.py"], init_py true), (["app", "extensions.py"], extensions_py), (["app", "routes.py"], routes_py), (["app", "models.py"], models_py), (["app", "forms.py"], forms_py), (["app", "templates", "base.html"], base_html), (["app", "templates", "index.html"], index_html), (["app", "static", "css", "main.css"], css_main), (["app", "static", "js", "main.js"], js_main)], [["app"], ["app", "templates"], ["app", "static"], ["app", "static", "css"], ["app", "static", "js"]]⟩ : FS) from rfl]
  rw [List.foldl_cons, show step (⟨[(["requirements.txt"], reqs), (["README.md"], readme name), ([".gitignore"], gitignore), (["run.py"], run_py), (["wsgi.py"], wsgi_py), (["config.py"], config_py), (["app", "__init__.py"], init_py true), (["app", "extensions.py"], extensions_py), (["app", "routes.py"], routes_py), (["app", "models.py"], models_py), (["app", "forms.py"], forms_py), (["app", "templates", "base.html"], base_html), (["app", "templates", "index.html"], index_html), (["app", "static", "css", "main.css"], css_main), (["app", "static", "js", "main.js"], js_main)], [["app"], ["app", "templates"], ["app", "static"], ["app", "static", "css"], ["app", "static", "js"]]⟩ : FS) (Action.wr ["app", "api", "__init__.py"] (api_init)) = (⟨[(["requirements.txt"], reqs), (["README.md"], readme name), ([".gitignore"], gitignore), (["run.py"], run_py), (["wsgi.py"], wsgi_py), (["config.py"], config_py), (["app", "__init__.py"], init_py true), (["app", "extensions.py"], extensions_py), (["app", "routes.py"], routes_py), (["app", "models.py"], models_py), (["app", "forms.py"], forms_py), (["app", "templates", "base.html"], base_html), (["app", "templates", "index.html"], index_html), (["app", "static", "css", "main.css"], css_main), (["app", "static", "js", "main.js"], js_main), (["app", "api", "__init__.py"], api_init)], [["app"], ["app", "templates"], ["app", "static"], ["app", "static", "css"], ["app", "static", "js"], ["app", "api"]]⟩ : FS) from rfl]
  rw [List.foldl_cons, show step (⟨[(["requirements.txt"], reqs), (["README.md"], readme name), ([".gitignore"], gitignore), (["run.py"], run_py), (["wsgi.py"], wsgi_py), (["config.py"], config_py), (["app", "__init__.py"], init_py true), (["app", "extensions.py"], extensions_py), (["app", "routes.py"], routes_py), (["app", "models.py"], models_py), (["app", "forms.py"], forms_py), (["app", "templates", "base.html"], base_html), (["app", "templates", "index.html"], index_html), (["app", "static", "css", "main.css"], css_main), (["app", "static", "js", "main.js"], js_main), (["app", "api", "__init__.py"], api_init)], [["app"], ["app", "templates"], ["app", "static"], ["app", "static", "css"], ["app", "static", "js"], ["app", "api"]]⟩ : FS) (Action.mk ["migrations"]) = (⟨[(["requirements.txt"], reqs), (["README.md"], readme name), ([".gitignore"], gitignore), (["run.py"], run_py), (["wsgi.py"], wsgi_py), (["config.py"], config_py), (["app", "__init__.py"], init_py true), (["app", "extensions.py"], extensions_py), (["app", "routes.py"], routes_py), (["app", "models.py"], models_py), (["app", "forms.py"], forms_py), (["app", "templates", "base.html"], base_html), (["app", "templates", "index.html"], index_html), (["app", "static", "css", "main.css"], css_main), (["app", "static", "js", "main.js"], js_main), (["app", "api", "__init__.py"], api_init)], [["app"], ["app", "templates"], ["app", "static"], ["app", "static", "css"], ["app", "static", "js"], ["app", "api"], ["migrations"]]⟩ : FS) from rfl]
  rw [List.foldl_cons, show step (⟨[(["requirements.txt"], reqs), (["README.md"], readme name), ([".gitignore"], gitignore), (["run.py"], run_py), (["wsgi.py"], wsgi_py), (["config.py"], config_py), (["app", "__init__.py"], init_py true), (["app", "extensions.py"], extensions_py), (["app", "routes.py"], routes_py), (["app", "models.py"], models_py), (["app", "forms.py"], forms_py), (["app", "templates", "base.html"], base_html), (["app", "templates", "index.html"], index_html), (["app", "static", "css", "main.css"], css_main), (["app", "static", "js", "main.js"], js_main), (["app", "api", "__init__.py"], api_init)], [["app"], ["app", "templates"], ["app", "static"], ["app", "static", "css"], ["app", "static", "js"], ["app", "api"], ["migrations"]]⟩ : FS) (Action.wr ["tests", "test_basic.py"] (test_basic)) = (⟨[(["requirements.txt"], reqs), (["README.md"], readme name), ([".gitignore"], gitignore), (["run.py"], run_py), (["wsgi.py"], wsgi_py), (["config.py"], config_py), (["app", "__init__.py"], init_py true), (["app", "extensions.py"], extensions_py), (["app", "routes.py"], routes_py), (["app", "models.py"], models_py), (["app", "forms.py"], forms_py), (["app", "templates", "base.html"], base_html), (["app", "templates", "index.html"], index_html), (["app", "static", "css", "main.css"], css_main), (["app", "static", "js", "main.js"], js_main), (["app", "api", "__init__.py"], api_init), (["tests", "test_basic.py"], test_basic)], [["app"], ["app", "templates"], ["app", "static"], ["app", "static", "css"], ["app", "static", "js"], ["app", "api"], ["migrations"], ["tests"]]⟩ : FS) from rfl]
  rw [List.foldl_nil]

/-! ## The claims -/

/-- Claim C1 (code bug): the spec and the `--force` help text say a run with
`force=true` replaces a pre-existing file with the standard generated
content. In the code `args.force` is parsed but never forwarded: `main`
calls `make_tree(root, args.name, with_api=args.with_api)` and every `write`
uses the default `overwrite=False`, so a pre-existing `README.md` with
sentinel content survives a `force=true` run unchanged, the generated
content differs from the sentinel, and the `force=true` run produces exactly
the tree of the `force=false` run. -/
theorem C1_force_flag_ignored :
    lookupFile (mainRun sentinelFS argsDemoForce (Except.ok ()) gitAllOk cwd0).1
        ["README.md"] = some ("SENTINEL")
    ∧ readme ("Demo") ≠ "SENTINEL"
    ∧ (mainRun sentinelFS argsDemoForce (Except.ok ()) gitAllOk cwd0).1
      = (mainRun sentinelFS argsDemoPlain (Except.ok ()) gitAllOk cwd0).1 :=
  ⟨rfl, by decide, rfl⟩

/-- Claim C2: for every argument bundle, two runs against fresh empty target
directories produce byte-identical trees. The emitted tree is a function of
the parsed arguments alone: it does not depend on the external-process
outcomes or the working directory, so any two runs with the same arguments
coincide. -/
theorem C2_determinism (a : Args) (e1 e2 : Except String Unit)
    (g1 g2 : GitEnv) (cwd1 cwd2 : PPath) :
    (mainRun emptyFS a e1 g1 cwd1).1 = (mainRun emptyFS a e2 g2 cwd2).1 := rfl

/-- Claim C3: with `force=false`, every generated path that already exists
keeps its pre-existing content, and every generated path that was absent is
created with the standard generated content (`genContent`). -/
theorem C3_selective_idempotence (fs : FS) (args : Args)
    (venvRes : Except String Unit) (git : GitEnv) (cwd : PPath) (p : RelPath)
    (_hforce : args.force = false) :
    lookupFile (mainRun fs args venvRes git cwd).1 p
      = if (lookupFile fs p).isSome then lookupFile fs p
        else genContent args.name args.with_api p := by
  have h0 : mainRun fs args venvRes git cwd
      = (make_tree fs args.name args.with_api,
         postLines args venvRes git cwd, 0) := rfl
  simp only [h0]
  rw [make_tree_lookup]
  cases lookupFile fs p <;> simp [orO]

/-- Witness for C3: a pre-existing `README.md` with sentinel content is left
unchanged by a plain `Demo` run. -/
theorem C3_witness :
    argsDemoPlain.force = false
    ∧ lookupFile (mainRun sentinelFS argsDemoPlain (Except.ok ()) gitAllOk cwd0).1
          ["README.md"]
      = (if (lookupFile sentinelFS ["README.md"]).isSome
          then lookupFile sentinelFS ["README.md"]
          else genContent ("Demo") false ["README.md"]) :=
  ⟨rfl, C3_selective_idempotence sentinelFS argsDemoPlain (Except.ok ()) gitAllOk
    cwd0 ["README.md"] rfl⟩

/-- Claim C4: on an empty target, `withApi=false` creates no api subpackage
directory (the directory list and the emitted paths contain nothing under
`app/api`), while `withApi=true` creates `app/api/__init__.py` and the
emitted `app/__init__.py` contains the api blueprint import and the
registration wiring. -/
theorem C4_api_toggle (name : String) :
    (make_tree emptyFS name false).dirs
      = [["app"], ["app", "templates"], ["app", "static"],
         ["app", "static", "css"], ["app", "static", "js"],
         ["migrations"], ["tests"]]
    ∧ (make_tree emptyFS name false).files.map Prod.fst
      = [["requirements.txt"], ["README.md"], [".gitignore"], ["run.py"],
         ["wsgi.py"], ["config.py"], ["app", "__init__.py"],
         ["app", "extensions.py"], ["app", "routes.py"], ["app", "models.py"],
         ["app", "forms.py"], ["app", "templates", "base.html"],
         ["app", "templates", "index.html"],
         ["app", "static", "css", "main.css"],
         ["app", "static", "js", "main.js"], ["tests", "test_basic.py"]]
    ∧ (make_tree emptyFS name true).dirs
      = [["app"], ["app", "templates"], ["app", "static"],
         ["app", "static", "css"], ["app", "static", "js"], ["app", "api"],
         ["migrations"], ["tests"]]
    ∧ lookupFile (make_tree emptyFS name true) ["app", "api", "__init__.py"]
      = some api_init
    ∧ lookupFile (make_tree emptyFS name true) ["app", "__init__.py"]
      = some (init_py true)
    ∧ countOccs ("from .api import api_bp").data ((init_py true).data) = 1
    ∧ countOccs ("app.register_blueprint(api_bp, url_prefix='/api')").data
        ((init_py true).data) = 1 := by
  rw [make_tree_empty_false_eval name, make_tree_empty_true_eval name]
  exact ⟨rfl, rfl, rfl, rfl, rfl, rfl, rfl⟩

/-- Claim C5: a `Demo` run with `withApi=false` on an empty target produces
exactly the sixteen files of the spec's layout (with their standard
contents), the directory list including the empty `migrations` directory,
and nothing else; and the generated routes module binds exactly one route,
at path `/`. -/
theorem C5_demo_file_set :
    (make_tree emptyFS ("Demo") false).files
      = [(["requirements.txt"], reqs), (["README.md"], readme ("Demo")),
         ([".gitignore"], gitignore), (["run.py"], run_py),
         (["wsgi.py"], wsgi_py), (["config.py"], config_py),
         (["app", "__init__.py"], init_py false),
         (["app", "extensions.py"], extensions_py),
         (["app", "routes.py"], routes_py), (["app", "models.py"], models_py),
         (["app", "forms.py"], forms_py),
         (["app", "templates", "base.html"], base_html),
         (["app", "templates", "index.html"], index_html),
         (["app", "static", "css", "main.css"], css_main),
         (["app", "static", "js", "main.js"], js_main),
         (["tests", "test_basic.py"], test_basic)]
    ∧ (make_tree emptyFS ("Demo") false).dirs
      = [["app"], ["app", "templates"], ["app", "static"],
         ["app", "static", "css"], ["app", "static", "js"],
         ["migrations"], ["tests"]]
    ∧ countOccs ("@main_bp.route(").data (routes_py.data) = 1
    ∧ countOccs ("@main_bp.route('/')").data (routes_py.data) = 1 :=
  ⟨rfl, rfl, rfl, rfl⟩

/-- Claim C6: when the venv-creation call fails with any reason `e`, the
exception is caught: the run prints a warning containing `e`, still prints
the final success summary, and exits 0. -/
theorem C6_venv_failure_warns_and_continues (fs : FS) (args : Args)
    (v e : String) (git : GitEnv) (cwd : PPath)
    (hv : args.venv = some v) (hne : v ≠ "") :
    ("[warn] venv creation failed: " ++ e)
        ∈ (mainRun fs args (Except.error e) git cwd).2.1
    ∧ ("✅ Flask scaffold created at: " ++ pathStr (rootOf cwd args))
        ∈ (mainRun fs args (Except.error e) git cwd).2.1
    ∧ (mainRun fs args (Except.error e) git cwd).2.2 = 0 := by
  have hv' : optTruthy args.venv = true := by
    rw [hv]; simp [optTruthy, hne]
  refine ⟨?_, ?_, rfl⟩
  · show _ ∈ postLines args (Except.error e) git cwd
    simp [postLines, hv', make_venv]
  · show _ ∈ postLines args (Except.error e) git cwd
    simp [postLines, summaryLines]

/-- Witness for C6: a `Demo --venv .venv` run whose venv call fails with
reason `boom` prints the warning and the summary and exits 0. -/
theorem C6_witness :
    argsDemoVenv.venv = some (".venv") ∧ (".venv" : String) ≠ ""
    ∧ (("[warn] venv creation failed: " ++ "boom")
          ∈ (mainRun emptyFS argsDemoVenv (Except.error ("boom")) gitAllOk cwd0).2.1
       ∧ ("✅ Flask scaffold created at: " ++ pathStr (rootOf cwd0 argsDemoVenv))
          ∈ (mainRun emptyFS argsDemoVenv (Except.error ("boom")) gitAllOk cwd0).2.1
       ∧ (mainRun emptyFS argsDemoVenv (Except.error ("boom")) gitAllOk cwd0).2.2 = 0) :=
  ⟨rfl, by decide,
   C6_venv_failure_warns_and_continues emptyFS argsDemoVenv (".venv") ("boom")
     gitAllOk cwd0 rfl (by decide)⟩

/-- Claim C7 counterexample: the claim asserts that after an earlier git step
fails the later commands are still issued. In the code the three
`subprocess.run(..., check=True)` calls share one try block, so a failing
`git init` raises and the `git add` and `git commit` calls are never issued:
only the init command appears in the issued list. -/
theorem C7_counterexample :
    (init_git gitInitFails).1 = [GitCmd.gitInit]
    ∧ GitCmd.gitAdd ∉ (init_git gitInitFails).1
    ∧ GitCmd.gitCommit ∉ (init_git gitInitFails).1
    ∧ (init_git gitInitFails).2
      = ["[warn] git init failed: " ++ "exit status 128"] :=
  ⟨rfl, by decide, by decide, rfl⟩

/-- Claim C7 (amended): if any of the three git steps fails, the error is
caught and converted to a single warning containing the reason and the
overall run continues (exit 0); after an earlier step fails the later
version-control commands are NOT issued — the raised exception skips the
remaining steps. -/
theorem C7_amended_git_failure (g : GitEnv) (e : String) :
    (g.initRes = Except.error e →
      (init_git g).1 = [GitCmd.gitInit]
      ∧ (init_git g).2 = ["[warn] git init failed: " ++ e])
    ∧ (g.initRes = Except.ok () → g.addRes = Except.error e →
      (init_git g).1 = [GitCmd.gitInit, GitCmd.gitAdd]
      ∧ (init_git g).2 = ["[warn] git init failed: " ++ e])
    ∧ (g.initRes = Except.ok () → g.addRes = Except.ok () →
        g.commitRes = Except.error e →
      (init_git g).1 = [GitCmd.gitInit, GitCmd.gitAdd, GitCmd.gitCommit]
      ∧ (init_git g).2 = ["[warn] git init failed: " ++ e])
    ∧ (∀ (fs : FS) (args : Args) (venvRes : Except String Unit) (cwd : PPath),
        (mainRun fs args venvRes g cwd).2.2 = 0) := by
  refine ⟨?_, ?_, ?_, fun fs args venvRes cwd => rfl⟩
  · intro h1; unfold init_git; rw [h1]; exact ⟨rfl, rfl⟩
  · intro h1 h2; unfold init_git; rw [h1, h2]; exact ⟨rfl, rfl⟩
  · intro h1 h2 h3; unfold init_git; rw [h1, h2, h3]; exact ⟨rfl, rfl⟩

/-- Witness for the amended C7: with `git init` succeeding and `git add`
failing, exactly the init and add commands were issued and one warning is
printed. -/
theorem C7_witness :
    gitAddFails.initRes = Except.ok ()
    ∧ gitAddFails.addRes = Except.error ("exit status 1")
    ∧ ((init_git gitAddFails).1 = [GitCmd.gitInit, GitCmd.gitAdd]
       ∧ (init_git gitAddFails).2
         = ["[warn] git init failed: " ++ "exit status 1"]) :=
  ⟨rfl, rfl, (C7_amended_git_failure gitAddFails ("exit status 1")).2.1 rfl rfl⟩

/-- Claim C8: when a content write fails partway through the emission (the
oracle succeeds on every earlier write of the sequence and fails on the
write of `p`, which is not skipped because `p` is absent), the run aborts
immediately: the process exits 1 with a diagnostic on standard error, no
later action is applied (the final file table is exactly the one after the
preceding actions), nothing is printed to stdout, and the files written
before the failure remain. -/
theorem C8_write_failure_aborts (fs : FS) (args : Args)
    (venvRes : Except String Unit) (git : GitEnv) (cwd : PPath)
    (ok : RelPath → Bool) (l1 l2 : List Action) (p : RelPath) (c : String)
    (hacts : actions args.name args.with_api = l1 ++ Action.wr p c :: l2)
    (hall : l1.all (actOk ok) = true)
    (hfail : ok p = false)
    (hnone : lookupFile (l1.foldl step fs) p = none) :
    (mainRunE ok fs args venvRes git cwd).2.2.2 = 1
    ∧ (mainRunE ok fs args venvRes git cwd).2.2.1
      = ["Traceback (most recent call last): OSError: cannot write "
          ++ String.intercalate ("/") p]
    ∧ (mainRunE ok fs args venvRes git cwd).1.files = (l1.foldl step fs).files
    ∧ (mainRunE ok fs args venvRes git cwd).2.1 = [] := by
  have hrun : runActsE ok (actions args.name args.with_api) fs
      = Except.error (mkdirParents (l1.foldl step fs) p,
          "OSError: cannot write " ++ String.intercalate ("/") p) := by
    rw [hacts, runActsE_append, runActsE_all_ok ok l1 fs hall]
    show runActsE ok (Action.wr p c :: l2) (l1.foldl step fs) = _
    simp only [runActsE, stepE, writeE_fail_eq ok _ p c hnone hfail]
  unfold mainRunE
  rw [hrun]
  exact ⟨rfl, rfl, mkdirParents_files _ _, rfl⟩

/-- Witness for C8: the `Demo` emission with the write of `run.py` failing
aborts with exit code 1, a stderr diagnostic, an empty stdout, and exactly
the three files written before `run.py` on disk. -/
theorem C8_witness :
    actions argsDemoPlain.name argsDemoPlain.with_api
      = (actions ("Demo") false).take 3
        ++ Action.wr ["run.py"] run_py :: (actions ("Demo") false).drop 4
    ∧ ((actions ("Demo") false).take 3).all (actOk okButRunPy) = true
    ∧ okButRunPy ["run.py"] = false
    ∧ lookupFile (((actions ("Demo") false).take 3).foldl step emptyFS) ["run.py"]
      = none
    ∧ ((mainRunE okButRunPy emptyFS argsDemoPlain (Except.ok ()) gitAllOk cwd0).2.2.2 = 1
       ∧ (mainRunE okButRunPy emptyFS argsDemoPlain (Except.ok ()) gitAllOk cwd0).2.2.1
         = ["Traceback (most recent call last): OSError: cannot write "
             ++ String.intercalate ("/") ["run.py"]]
       ∧ (mainRunE okButRunPy emptyFS argsDemoPlain (Except.ok ()) gitAllOk cwd0).1.files
         = (((actions ("Demo") false).take 3).foldl step emptyFS).files
       ∧ (mainRunE okButRunPy emptyFS argsDemoPlain (Except.ok ()) gitAllOk cwd0).2.1
         = []) :=
  ⟨rfl, rfl, rfl, rfl,
   C8_write_failure_aborts emptyFS argsDemoPlain (Except.ok ()) gitAllOk cwd0
     okButRunPy ((actions ("Demo") false).take 3) ((actions ("Demo") false).drop 4)
     ["run.py"] run_py rfl rfl rfl rfl⟩

/-- Claim C9: the venv target passed to the external tool is
`root / args.venv`; when the `--venv` argument is an absolute path the join
yields that absolute path itself, and only for a relative argument is the
environment placed under the (resolved) project root. -/
theorem C9_absolute_venv_path (root v : PPath) :
    (v.absolute = true → venvTarget root v = v)
    ∧ (v.absolute = false →
        venvTarget root v = ⟨root.absolute, root.comps ++ v.comps⟩) := by
  constructor
  · intro h; simp [venvTarget, pathJoin, h]
  · intro h; simp [venvTarget, pathJoin, h]

/-- Witness for C9: joining a root with the absolute path `/opt/venv` yields
`/opt/venv` itself, while the relative `.venv` lands under the root. -/
theorem C9_witness :
    (pathOfString ("/opt/venv")).absolute = true
    ∧ venvTarget cwd0 (pathOfString ("/opt/venv")) = pathOfString ("/opt/venv")
    ∧ (pathOfString (".venv")).absolute = false
    ∧ venvTarget cwd0 (pathOfString (".venv"))
      = ⟨cwd0.absolute, cwd0.comps ++ (pathOfString (".venv")).comps⟩ :=
  ⟨by decide,
   (C9_absolute_venv_path cwd0 (pathOfString ("/opt/venv"))).1 (by decide),
   by decide,
   (C9_absolute_venv_path cwd0 (pathOfString (".venv"))).2 (by decide)⟩

/-- Claim C10: for a fixed name and an empty target, the `withApi=true` and
`withApi=false` trees differ in exactly two places: the true tree adds
`app/api/__init__.py` (and the `app/api` directory), and the content of
`app/__init__.py` differs (api wiring vs empty substitution); every other
emitted path and its content—and every other directory—is identical. -/
theorem C10_api_frame (name : String) :
    (make_tree emptyFS name false).files.map Prod.fst
      = [["requirements.txt"], ["README.md"], [".gitignore"], ["run.py"],
         ["wsgi.py"], ["config.py"], ["app", "__init__.py"],
         ["app", "extensions.py"], ["app", "routes.py"], ["app", "models.py"],
         ["app", "forms.py"], ["app", "templates", "base.html"],
         ["app", "templates", "index.html"],
         ["app", "static", "css", "main.css"],
         ["app", "static", "js", "main.js"], ["tests", "test_basic.py"]]
    ∧ (make_tree emptyFS name true).files.map Prod.fst
      = [["requirements.txt"], ["README.md"], [".gitignore"], ["run.py"],
         ["wsgi.py"], ["config.py"], ["app", "__init__.py"],
         ["app", "extensions.py"], ["app", "routes.py"], ["app", "models.py"],
         ["app", "forms.py"], ["app", "templates", "base.html"],
         ["app", "templates", "index.html"],
         ["app", "static", "css", "main.css"],
         ["app", "static", "js", "main.js"], ["app", "api", "__init__.py"],
         ["tests", "test_basic.py"]]
    ∧ (make_tree emptyFS name true).files.filter
        (fun e => decide (e.1 ≠ ["app", "__init__.py"])
          && decide (e.1 ≠ ["app", "api", "__init__.py"]))
      = (make_tree emptyFS name false).files.filter
        (fun e => decide (e.1 ≠ ["app", "__init__.py"])
          && decide (e.1 ≠ ["app", "api", "__init__.py"]))
    ∧ lookupFile (make_tree emptyFS name true) ["app", "api", "__init__.py"]
      = some api_init
    ∧ lookupFile (make_tree emptyFS name false) ["app", "api", "__init__.py"]
      = none
    ∧ lookupFile (make_tree emptyFS name true) ["app", "__init__.py"]
      = some (init_py true)
    ∧ lookupFile (make_tree emptyFS name false) ["app", "__init__.py"]
      = some (init_py false)
    ∧ init_py true ≠ init_py false
    ∧ (make_tree emptyFS name true).dirs
      = [["app"], ["app", "templates"], ["app", "static"],
         ["app", "static", "css"], ["app", "static", "js"], ["app", "api"],
         ["migrations"], ["tests"]]
    ∧ (make_tree emptyFS name false).dirs
      = [["app"], ["app", "templates"], ["app", "static"],
         ["app", "static", "css"], ["app", "static", "js"],
         ["migrations"], ["tests"]] := by
  rw [make_tree_empty_false_eval name, make_tree_empty_true_eval name]
  exact ⟨rfl, rfl, rfl, rfl, rfl, rfl, rfl, by decide, rfl, rfl⟩

end FlaskScaffold
